import Mathlib

/-!
Verification development for the ragas natural-language-to-SQL pipeline
(`src/rag/rag_pipeline.py`, `src/rag/utils.py`, `src/rag/prompt_enhancer.py`,
`src/rag/query_generator.py`, `src/rag/result_interpreter.py`, and the
stand-alone `src/rag_pipeline.py`).

The Python code is shallowly embedded: each language-model call is a
function `String → Except String String` from the prompt to either the
response text (`.ok`) or the message of the exception the call raised
(`.error`); the sqlite cursor's behaviour on one statement is an
`ExecOutcome` oracle; connection lifecycle events are returned explicitly
as a trace.
-/

namespace Ragas

/-- A database row: the rendered scalar values of one result tuple
(positional, aligned with the column list). -/
abbrev Row := List String

/-- Outcome of `cursor.execute(query)` + `cursor.fetchall()` on one SQL
statement: either the cursor raises an exception with message `msg`, or it
succeeds with a list of rows and the cursor's `description` metadata
(`none` models Python's `cursor.description is None`, the case for
non-SELECT statements; each entry of a present description is the
7-tuple whose first element is the column name, modelled as a `Row`). -/
inductive ExecOutcome where
  | raises (msg : String)
  | succeeds (rows : List Row) (description : Option (List Row))
deriving DecidableEq

/-- Connection lifecycle events emitted by `execute_sql`
(`sqlite3.connect` and `conn.close()`). -/
inductive ConnEvent where
  | opened
  | closed
deriving DecidableEq

/-- The literal prefix of the error string built at
`src/rag/rag_pipeline.py:20` (and `src/rag_pipeline.py:46`):
`f"❌ Error executing query: {str(e)}"`. -/
def errorMark : String := "❌ Error executing query: "

/-- The message of the `TypeError` Python raises when the list
comprehension at `src/rag/rag_pipeline.py:15` iterates
`cursor.description` while it is `None`. -/
def noneTypeErrorMsg : String := "\x27NoneType\x27 object is not iterable"

/-- Embedding of `execute_sql(query, db_path)`
(`src/rag/rag_pipeline.py:9-20`, identical in `src/rag_pipeline.py:35-46`).
The statement's behaviour is the oracle `o`.  Returns the Python pair
`(columns, results)` — `columns : Option (List String)`, `results` either
the row list or the error string — together with the list of connection
events in program order.  The three arms are the three control paths of
the source: exception raised inside the `try`; `cursor.description` is
`None` (the comprehension raises `TypeError`, caught by the same
`except`); and full success, where `columns` is
`[description[0] for description in cursor.description]`. -/
def execute_sql (o : ExecOutcome) :
    (Option (List String) × (List Row ⊕ String)) × List ConnEvent :=
  match o with
  | .raises msg =>
      ((none, Sum.inr (errorMark ++ msg)), [ConnEvent.opened, ConnEvent.closed])
  | .succeeds _rows none =>
      ((none, Sum.inr (errorMark ++ noneTypeErrorMsg)), [ConnEvent.opened, ConnEvent.closed])
  | .succeeds rows (some description) =>
      ((some (description.map (fun d => d.getD 0 "")), Sum.inl rows),
       [ConnEvent.opened, ConnEvent.closed])

/-- Embedding of Python's `str.strip()` as used on every model
response (`.strip()` in the source): drop whitespace characters from both
ends of the string. -/
def strip (s : String) : String :=
  String.mk (((s.data.dropWhile Char.isWhitespace).reverse.dropWhile
    Char.isWhitespace).reverse)

/-- The instruction prompt built by `enhance_question`
(`src/rag/prompt_enhancer.py:7-43`); the f-string placeholder becomes
string concatenation (ASCII apostrophes in the source are written `\x27`). -/
def enhancer_prompt (user_question : String) : String :=
  "\nYou are an expert **grammar correction assistant** in a Retrieval-Augmented Generation (RAG) system.\n\n---\n\nObjective:\nImprove the grammar, spelling, and phrasing of the user’s question **without altering the intent or meaning**. Your output will be passed to another language model that generates SQL queries, so precision is essential.\n\n---\n\n"
  ++ "Instructions:\n- Correct **only grammar and phrasing** issues.\n- Do **not** rephrase or restructure unless absolutely necessary.\n- Retain all original nouns, keywords, and intent as-is.\n- Do **not** explain, comment, or return anything other than the corrected question.\n- If the question is already grammatically correct, return it unchanged.\n\n---\n\n"
  ++ "Examples:\n\n Input: \"Give me name and email from cutomers tabel\"\n Output: \"Give me the name and email from the customers table\"\n\n Input: \"list top 5 row in databse\"\n Output: \"List the top 5 rows in the database\"\n\n Input: \"how many song by artist call \x27Queen\x27\"\n Output: \"How many songs are by the artist called \x27Queen\x27?\"\n\n---\n\nInput:\n"
  ++ user_question ++ "\n\n Output (corrected question):\n"

/-- Embedding of `enhance_question(user_question, model)`
(`src/rag/prompt_enhancer.py:6-56`).  `chat` is the `ollama.chat` call on
the prompt; on success the response content is stripped and returned, on
any exception the original question is returned unchanged (the
`except ... return user_question` fallback at lines 54-56). -/
def enhance_question (chat : String → Except String String)
    (user_question : String) : String :=
  match chat (enhancer_prompt user_question) with
  | Except.ok response => strip response
  | Except.error _ => user_question

/-- The prompt built by `generate_sql` (`src/rag_pipeline.py:19-27`,
identically imported as `src/rag/query_generator.py`). -/
def generator_prompt (schema_text user_question : String) : String :=
  "\nYou are a helpful assistant. Given the following database schema and the user\x27s question, generate a correct SQL query compatible with SQLite. Return only the SQL query and nothing else.\n\nSchema:\n"
  ++ schema_text ++ "\n\nUser Question:\n" ++ user_question ++ "\n"

/-- Embedding of `generate_sql(schema_text, user_question, model)`
(`src/rag_pipeline.py:18-32`).  The model call is NOT guarded: an
exception propagates to the caller (`Except.error`). -/
def generate_sql (chat : String → Except String String)
    (schema_text user_question : String) : Except String String :=
  match chat (generator_prompt schema_text user_question) with
  | Except.ok response => Except.ok (strip response)
  | Except.error e => Except.error e

/-- A schema description: an ordered mapping from table name to an
ordered mapping from column name to a description string (the parsed
content of `schema["tables"]` in `src/rag/utils.py:10`). -/
abbrev Schema := List (String × List (String × String))

/-- Embedding of the formatting loop of `load_and_format_schema`
(`src/rag/utils.py:5-16`): for each table, append `"Table: {table}\n"`,
then one `"  - {column}: {desc}\n"` line per column, then a blank line,
all accumulated into one string. -/
def load_and_format_schema (schema : Schema) : String :=
  schema.foldl
    (fun formatted tc =>
      (tc.2.foldl
        (fun f cd => f ++ "  - " ++ cd.1 ++ ": " ++ cd.2 ++ "\n")
        (formatted ++ "Table: " ++ tc.1 ++ "\n")) ++ "\n")
    ""

/-- The default of the `max_rows` parameter of `interpret_result`
(`src/rag/result_interpreter.py:3`). -/
def max_rows_default : Nat := 10

/-- The truncation step of `interpret_result`
(`src/rag/result_interpreter.py:4-6`): only the first `max_rows` rows are
kept when there are too many. -/
def truncate_rows (data : List Row) (max_rows : Nat) : List Row :=
  if data.length > max_rows then data.take max_rows else data

/-- The `result_text` rendering of `interpret_result`
(`src/rag/result_interpreter.py:8-10`): one line per row, each line the
comma-separated `"{columns[i]}: {row[i]}"` cells over the column
indices. -/
def result_text (columns : List String) (data : List Row) : String :=
  String.intercalate "\n"
    (data.map (fun row =>
      String.intercalate ", "
        ((List.range columns.length).map (fun i =>
          columns.getD i "" ++ ": " ++ row.getD i ""))))

/-- The interpreter prompt (`src/rag/result_interpreter.py:12-57`), with
the f-string placeholders (question, SQL, number of shown rows, rendered
rows) as arguments. -/
def interpreter_prompt (user_question sql_query : String) (shown_len : Nat)
    (rtext : String) : String :=
  "\nYou are a powerful and helpful AI assistant integrated into a Retrieval-Augmented Generation (RAG) system. Your role is to interpret the results of SQL queries executed on a SQLite3 database and respond clearly to the user.\n\n---\n\nYour responsibilities:\n\n1. Understand the user’s original question.\n2. Understand the SQL query that was generated and executed.\n3. Review the data retrieved from the database.\n4. Decide how to respond based on the user\x27s intent.\n\n---\n\n"
  ++ "Interpretation Logic:\n\n- If the user explicitly asks for the data **\"as it is\"**, or says things like **\"just show the data\"**, **\"only return the raw results\"**, or similar, then:\n    - Return the data only.\n    - Do NOT provide any explanation, context, summary, or interpretation.\n    - Format the response in a clean and readable tabular structure.\n    - Preserve data types and accuracy — no rounding or paraphrasing.\n\n"
  ++ "- If the user asks a general, analytical, or interpretive question (e.g., \"Who are the top customers?\", \"What countries have most users?\"), then:\n    - Explain the result clearly and concisely.\n    - Use simple language as if talking to a beginner.\n    - Mention what the query did.\n    - Highlight interesting points if visible (like patterns, counts, top entries, etc.).\n    - Keep it short and human-readable.\n\n---\n\n"
  ++ "Inputs:\n\n- User Question: \"" ++ user_question ++ "\"\n- Executed SQL Query:\n" ++ sql_query
  ++ "\n\n- Query Result Preview (first " ++ toString shown_len ++ " rows):\n" ++ rtext
  ++ "\n\n---\n\nBased on the user\x27s request, decide the appropriate response type.\n\nOnly return your final response. Do NOT repeat these instructions.\n"

/-- Embedding of `interpret_result(user_question, sql_query, data,
columns, model, max_rows)` (`src/rag/result_interpreter.py:3-63`).  The
row set is truncated to `max_rows` before the prompt is built; the model
call is NOT guarded, so an exception propagates to the caller. -/
def interpret_result (chat : String → Except String String)
    (user_question sql_query : String) (data : List Row)
    (columns : List String) (max_rows : Nat) : Except String String :=
  let shown := truncate_rows data max_rows
  match chat (interpreter_prompt user_question sql_query shown.length
      (result_text columns shown)) with
  | Except.ok response => Except.ok (strip response)
  | Except.error e => Except.error e

/-- One Interaction Trace record, with exactly the four fields that
`log_interaction(user_query, sql_query, results, explanation)` writes
(`src/rag/utils.py:26-30`). -/
structure TraceRecord where
  user_query : String
  sql_query : String
  results : List Row
  explanation : String
deriving DecidableEq

/-- Embedding of `log_interaction` (`src/rag/utils.py:26-30`): it emits
one record holding its four arguments. -/
def log_interaction (user_query sql_query : String) (results : List Row)
    (explanation : String) : TraceRecord :=
  ⟨user_query, sql_query, results, explanation⟩

/-- The observable outcome of one completed run of `main`
(`src/rag/rag_pipeline.py:22-50`): the enhanced question, the generated
SQL, whether `interpret_result` was invoked, the final user-visible
answer (the printed error string on the error path, the printed
explanation on the success path), and the Interaction Trace records
written by `log_interaction`. -/
structure RunResult where
  enhanced_question : String
  sql_query : String
  interpreter_invoked : Bool
  final_answer : String
  log_records : List TraceRecord
deriving DecidableEq

/-- The external world of one run of `main`: the user's raw question, the
parsed schema document, the three model-call behaviours (prompt to
response or raised exception message), and the sqlite behaviour of
executing the generated SQL. -/
structure Oracle where
  raw_question : String
  schema : Schema
  enhance_chat : String → Except String String
  generate_chat : String → Except String String
  interpret_chat : String → Except String String
  exec_outcome : String → ExecOutcome

/-- Embedding of `main()` (`src/rag/rag_pipeline.py:22-50`).  The stages
run in source order; an unguarded exception anywhere (`generate_sql`,
`interpret_result`) escapes `main` as `Except.error` — `main` has no
try/except of its own.  On the error-string variant from `execute_sql`
(`isinstance(results, str)`), `main` prints the error string and returns
at once: `interpret_result` and `log_interaction` are not reached.  Only
the success path calls `log_interaction(raw_question, sql_query, results,
explanation)`. -/
def main (o : Oracle) : Except String RunResult :=
  let schema_text := load_and_format_schema o.schema
  let enhanced_question := enhance_question o.enhance_chat o.raw_question
  match generate_sql o.generate_chat schema_text enhanced_question with
  | Except.error e => Except.error e
  | Except.ok sql_query =>
    let res := execute_sql (o.exec_outcome sql_query)
    let columns := res.1.1
    match res.1.2 with
    | Sum.inr err =>
        Except.ok ⟨enhanced_question, sql_query, false, err, []⟩
    | Sum.inl results =>
        match interpret_result o.interpret_chat enhanced_question sql_query
            results (columns.getD []) max_rows_default with
        | Except.error e => Except.error e
        | Except.ok explanation =>
            Except.ok ⟨enhanced_question, sql_query, true, explanation,
              [log_interaction o.raw_question sql_query results explanation]⟩

/-- A concrete run whose generated SQL fails to execute: the enhancer's
model call is down (so the raw question is kept), the generator returns a
statement naming a missing table, and sqlite raises on it. -/
def exErrorRun : Oracle :=
  ⟨"q", [], fun _ => Except.error "enhancer down",
    fun _ => Except.ok "SELECT * FROM nonexistent_table",
    fun _ => Except.ok "unused",
    fun _ => ExecOutcome.raises "no such table: nonexistent_table"⟩

/-- A concrete fully successful run in which the enhanced question
differs from the raw question. -/
def exSuccessRun : Oracle :=
  ⟨"raw question", [],
    fun _ => Except.ok "ENHANCED QUESTION",
    fun _ => Except.ok "SQL",
    fun _ => Except.ok "EXPL",
    fun _ => ExecOutcome.succeeds [["1"]] (some [["c"]])⟩

/-- A concrete run whose SQL-generation model call raises. -/
def exGenFailRun : Oracle :=
  ⟨"q", [], fun _ => Except.ok "Q",
    fun _ => Except.error "generator down",
    fun _ => Except.ok "unused",
    fun _ => ExecOutcome.succeeds [] (some [])⟩

/-- A concrete run whose result-interpretation model call raises after a
successful execution. -/
def exInterpFailRun : Oracle :=
  ⟨"q", [], fun _ => Except.ok "Q",
    fun _ => Except.ok "SQL",
    fun _ => Except.error "interpreter down",
    fun _ => ExecOutcome.succeeds [["1"]] (some [["c"]])⟩

/-- A concrete two-column schema description, as in the repository's own
test fixture. -/
def exSchema : Schema :=
  [("customers", [("id", "Customer ID"), ("name", "Customer name")])]

end Ragas

namespace Ragas

/-- C5: if the enhancer's backing model call fails with any exception,
`enhance_question` returns the input question unchanged and does not
raise (the `except` arm of `src/rag/prompt_enhancer.py:54-56`). -/
theorem enhance_question_fallback (chat : String → Except String String)
    (q msg : String) (h : chat (enhancer_prompt q) = Except.error msg) :
    enhance_question chat q = q := by
  unfold enhance_question
  rw [h]

/-- Witness for C5 at the concrete failing call of the repository's own
test (`test_enhance_question_error`). -/
theorem enhance_question_fallback_witness :
    enhance_question (fun _ => Except.error "Ollama error")
      "Give I top a five customer names" = "Give I top a five customer names" :=
  enhance_question_fallback (fun _ => Except.error "Ollama error")
    "Give I top a five customer names" "Ollama error" rfl

/-- C6: `interpret_result` shows the model exactly `min M N` rows, where
`M` is the result-set size and `N` the max-rows bound whose default is
10: the shown rows are the first `min M N` rows of the input (`take`),
all `M` rows unmodified when `M ≤ N`; the caller's row list is a plain
argument of the pure function and is never mutated. -/
theorem interpret_result_truncation (chat : String → Except String String)
    (q sql : String) (data : List Row) (columns : List String) (N : Nat) :
    (truncate_rows data N).length = min data.length N ∧
    truncate_rows data N = data.take (min data.length N) ∧
    (data.length ≤ N → truncate_rows data N = data) ∧
    interpret_result chat q sql data columns N =
      interpret_result chat q sql (data.take (min data.length N)) columns N ∧
    max_rows_default = 10 := by
  have htake : truncate_rows data N = data.take N := by
    unfold truncate_rows
    split
    · rfl
    · rename_i hle
      exact (List.take_of_length_le (Nat.le_of_not_lt hle)).symm
  have hmin : data.take N = data.take (min data.length N) := by
    rcases Nat.le_total data.length N with hle | hle
    · rw [Nat.min_eq_left hle, List.take_of_length_le hle, List.take_length]
    · rw [Nat.min_eq_right hle]
  refine ⟨?_, ?_, ?_, ?_, rfl⟩
  · rw [htake, List.length_take]
    exact Nat.min_comm N data.length
  · rw [htake, hmin]
  · intro hle
    rw [htake, List.take_of_length_le hle]
  · unfold interpret_result
    have h2 : truncate_rows (data.take (min data.length N)) N =
        truncate_rows data N := by
      rw [htake, hmin]
      unfold truncate_rows
      rw [if_neg]
      simp only [List.length_take]
      omega
    rw [h2]

/-- Witness for C6 on a 12-row result set with the default bound 10. -/
theorem interpret_result_truncation_witness :
    (truncate_rows (List.replicate 12 ["x"]) 10).length =
      min (List.replicate 12 ["x"] : List Row).length 10 ∧
    truncate_rows (List.replicate 12 ["x"]) 10 =
      (List.replicate 12 (["x"] : Row)).take
        (min (List.replicate 12 ["x"] : List Row).length 10) ∧
    ((List.replicate 12 (["x"] : Row)).length ≤ 10 →
      truncate_rows (List.replicate 12 ["x"]) 10 = List.replicate 12 ["x"]) ∧
    interpret_result (fun _ => Except.ok "resp") "q" "sql"
        (List.replicate 12 ["x"]) ["c"] 10 =
      interpret_result (fun _ => Except.ok "resp") "q" "sql"
        ((List.replicate 12 (["x"] : Row)).take
          (min (List.replicate 12 ["x"] : List Row).length 10)) ["c"] 10 ∧
    max_rows_default = 10 :=
  interpret_result_truncation (fun _ => Except.ok "resp") "q" "sql"
    (List.replicate 12 ["x"]) ["c"] 10

/-- C1 (counterexample): on the failing statement
`SELECT * FROM nonexistent_table` sqlite raises with message
`no such table: nonexistent_table`, and the string returned by
`execute_sql` is NOT exactly `"Error executing query: " ++ message` —
the code prepends the marker with `"❌ "`, so the claim's "exactly"
clause is false. -/
theorem execute_sql_error_not_bare_marker :
    (execute_sql (ExecOutcome.raises "no such table: nonexistent_table")).1.2 ≠
      Sum.inr ("Error executing query: " ++ "no such table: nonexistent_table") := by
  decide

/-- C1 (amended): for every execution exception with message `msg`,
`execute_sql` returns first component `none` and the error string exactly
`"❌ Error executing query: " ++ msg`; in particular the string contains
the fixed marker `"Error executing query: "` as a substring. -/
theorem execute_sql_error_channel (msg : String) :
    (execute_sql (ExecOutcome.raises msg)).1 =
      (none, Sum.inr (errorMark ++ msg)) ∧
    ("Error executing query: ").data <:+: (errorMark ++ msg).data := by
  refine ⟨rfl, ?_⟩
  have h1 : errorMark = "❌ " ++ "Error executing query: " := by decide
  have h : (errorMark ++ msg).data =
      "❌ ".data ++ ("Error executing query: ".data ++ msg.data) := by
    rw [h1]
    simp [String.data_append]
  rw [h]
  exact List.infix_append' _ _ _

/-- C7: `execute_sql` releases its connection on every exit path: for
every outcome of the statement (success, execution exception, or absent
cursor description) the event trace is exactly one `opened` followed by
one `closed` — the connection never leaks. -/
theorem execute_sql_closes_connection (o : ExecOutcome) :
    (execute_sql o).2 = [ConnEvent.opened, ConnEvent.closed] := by
  rcases o with msg | ⟨rows, _ | d⟩ <;> rfl

/-- C10: a statement that executes without error but yields no cursor
description (`cursor.description is None`, as for INSERT/UPDATE/DELETE or
DDL) is reported through the error channel: `execute_sql` returns
`(None, error string)` — the `TypeError` from iterating `None` is caught
by the same `except` arm — not a success pair. -/
theorem execute_sql_no_description_is_error (rows : List Row) :
    (execute_sql (ExecOutcome.succeeds rows none)).1 =
      (none, Sum.inr (errorMark ++ noneTypeErrorMsg)) := rfl

/-- C2: in every run whose generation succeeded and whose execution
returned the error-string variant, `main` completes normally, the
interpreter is never invoked (`interpreter_invoked = false`, and the
result does not depend on `interpret_chat`), the final user-visible
answer is the error string, and nothing is logged. -/
theorem exec_error_skips_interpreter (o : Oracle) (gresp errStr : String)
    (hgen : o.generate_chat (generator_prompt (load_and_format_schema o.schema)
      (enhance_question o.enhance_chat o.raw_question)) = Except.ok gresp)
    (hexec : (execute_sql (o.exec_outcome (strip gresp))).1.2 = Sum.inr errStr) :
    main o = Except.ok ⟨enhance_question o.enhance_chat o.raw_question,
      (strip gresp), false, errStr, []⟩ := by
  have h1 : generate_sql o.generate_chat (load_and_format_schema o.schema)
      (enhance_question o.enhance_chat o.raw_question) = Except.ok (strip gresp) := by
    unfold generate_sql
    rw [hgen]
  simp only [main, h1, hexec]

/-- Witness for C2: the spec's end-to-end scenario 3
(`SELECT * FROM nonexistent_table`). -/
theorem exec_error_skips_interpreter_witness :
    main exErrorRun = Except.ok ⟨"q", "SELECT * FROM nonexistent_table", false,
      "❌ Error executing query: no such table: nonexistent_table", []⟩ :=
  exec_error_skips_interpreter exErrorRun "SELECT * FROM nonexistent_table"
    "❌ Error executing query: no such table: nonexistent_table" rfl rfl

/-- C3 (amended): the number of Interaction Trace records written by a
run of `main` is one exactly on the fully successful path; a run whose
execution returns the error-string variant writes none, because `main`
returns before reaching `log_interaction`. -/
theorem log_records_per_run (o : Oracle) (gresp : String)
    (hgen : o.generate_chat (generator_prompt (load_and_format_schema o.schema)
      (enhance_question o.enhance_chat o.raw_question)) = Except.ok gresp) :
    (∀ errStr, (execute_sql (o.exec_outcome (strip gresp))).1.2 = Sum.inr errStr →
      Except.map (fun r => r.log_records.length) (main o) = Except.ok 0) ∧
    (∀ results explanation,
      (execute_sql (o.exec_outcome (strip gresp))).1.2 = Sum.inl results →
      interpret_result o.interpret_chat
        (enhance_question o.enhance_chat o.raw_question) (strip gresp) results
        (((execute_sql (o.exec_outcome (strip gresp))).1.1).getD []) max_rows_default
        = Except.ok explanation →
      Except.map (fun r => r.log_records.length) (main o) = Except.ok 1) := by
  have h1 : generate_sql o.generate_chat (load_and_format_schema o.schema)
      (enhance_question o.enhance_chat o.raw_question) = Except.ok (strip gresp) := by
    unfold generate_sql
    rw [hgen]
  constructor
  · intro errStr hexec
    simp only [main, h1, hexec, Except.map, List.length_nil]
  · intro results explanation hexec hint
    simp only [main, h1, hexec, hint, Except.map, log_interaction,
      List.length_cons, List.length_nil]

/-- Witness for C3: the concrete error run writes zero records; the
concrete success run writes exactly one. -/
theorem log_records_per_run_witness :
    Except.map (fun r => r.log_records.length) (main exErrorRun) = Except.ok 0 ∧
    Except.map (fun r => r.log_records.length) (main exSuccessRun) = Except.ok 1 :=
  ⟨(log_records_per_run exErrorRun "SELECT * FROM nonexistent_table" rfl).1
      "❌ Error executing query: no such table: nonexistent_table" rfl,
   (log_records_per_run exSuccessRun "SQL" rfl).2 [["1"]] "EXPL" rfl rfl⟩

/-- C3 (counterexample): a run that ends in an execution error writes
zero Interaction Trace records, not exactly one — the claim's "success or
error" universality fails on the error path, which returns before
`log_interaction`. -/
theorem log_records_error_run_zero :
    Except.map (fun r => r.log_records.length) (main exErrorRun) =
      Except.ok 0 := rfl

/-- C4 (counterexample): in a concrete run whose interpretation model
call raises with message `interpreter down`, `main` itself raises that
exception past its boundary (`Except.error`); no final answer of the form
`Pipeline Error: <message>` is produced anywhere — `main` has no
top-level try/except. -/
theorem interpreter_exception_escapes_main :
    main exInterpFailRun = Except.error "interpreter down" := rfl

/-- C4 (amended): an exception raised by a stage outside the Enhancer's
and Executor's guarded boundaries — the Generator's or the Interpreter's
model call — is NOT caught by the orchestrator: `main` propagates it
unchanged to its caller, produces no final answer, and writes no trace
record. -/
theorem stage_exception_propagates (o : Oracle) (msg : String) :
    (o.generate_chat (generator_prompt (load_and_format_schema o.schema)
        (enhance_question o.enhance_chat o.raw_question)) = Except.error msg →
      main o = Except.error msg) ∧
    (∀ gresp results,
      o.generate_chat (generator_prompt (load_and_format_schema o.schema)
        (enhance_question o.enhance_chat o.raw_question)) = Except.ok gresp →
      (execute_sql (o.exec_outcome (strip gresp))).1.2 = Sum.inl results →
      interpret_result o.interpret_chat
        (enhance_question o.enhance_chat o.raw_question) (strip gresp) results
        (((execute_sql (o.exec_outcome (strip gresp))).1.1).getD []) max_rows_default
        = Except.error msg →
      main o = Except.error msg) := by
  constructor
  · intro hgen
    have h1 : generate_sql o.generate_chat (load_and_format_schema o.schema)
        (enhance_question o.enhance_chat o.raw_question) = Except.error msg := by
      unfold generate_sql
      rw [hgen]
    simp only [main, h1]
  · intro gresp results hgen hexec hint
    have h1 : generate_sql o.generate_chat (load_and_format_schema o.schema)
        (enhance_question o.enhance_chat o.raw_question) = Except.ok (strip gresp) := by
      unfold generate_sql
      rw [hgen]
    simp only [main, h1, hexec, hint]

/-- Witness for C4: a failing generator call and a failing interpreter
call each escape `main` with their own message. -/
theorem stage_exception_propagates_witness :
    main exGenFailRun = Except.error "generator down" ∧
    main exInterpFailRun = Except.error "interpreter down" :=
  ⟨(stage_exception_propagates exGenFailRun "generator down").1 rfl,
   (stage_exception_propagates exInterpFailRun "interpreter down").2
      "SQL" [["1"]] rfl rfl rfl⟩

/-- C8 (counterexample): a concrete successful run in which the enhanced
question (`ENHANCED QUESTION`) differs from every component of the single
Interaction Trace record written — the record holds the RAW question, the
generated SQL, the rows and the explanation, so the enhanced question is
not part of the recorded trace, contrary to the claim. -/
theorem trace_record_lacks_enhanced_question :
    main exSuccessRun = Except.ok ⟨"ENHANCED QUESTION", "SQL", true, "EXPL",
      [⟨"raw question", "SQL", [["1"]], "EXPL"⟩]⟩ ∧
    "ENHANCED QUESTION" ≠ "raw question" ∧
    "ENHANCED QUESTION" ≠ "SQL" ∧
    "ENHANCED QUESTION" ≠ "EXPL" ∧
    "ENHANCED QUESTION" ≠ "1" := by
  refine ⟨rfl, ?_, ?_, ?_, ?_⟩ <;> decide

/-- C8 (amended): on every successful run the single Interaction Trace
record comprises exactly (raw request, generated SQL, query result rows,
final narrated answer) — `log_interaction(raw_question, sql_query,
results, explanation)` — and the enhanced question is not among its
fields. -/
theorem trace_record_success_run (o : Oracle) (gresp : String)
    (results : List Row) (explanation : String)
    (hgen : o.generate_chat (generator_prompt (load_and_format_schema o.schema)
      (enhance_question o.enhance_chat o.raw_question)) = Except.ok gresp)
    (hexec : (execute_sql (o.exec_outcome (strip gresp))).1.2 = Sum.inl results)
    (hint : interpret_result o.interpret_chat
      (enhance_question o.enhance_chat o.raw_question) (strip gresp) results
      (((execute_sql (o.exec_outcome (strip gresp))).1.1).getD []) max_rows_default
      = Except.ok explanation) :
    main o = Except.ok ⟨enhance_question o.enhance_chat o.raw_question,
      (strip gresp), true, explanation,
      [log_interaction o.raw_question (strip gresp) results explanation]⟩ := by
  have h1 : generate_sql o.generate_chat (load_and_format_schema o.schema)
      (enhance_question o.enhance_chat o.raw_question) = Except.ok (strip gresp) := by
    unfold generate_sql
    rw [hgen]
  simp only [main, h1, hexec, hint]

/-- Witness for C8 on the concrete successful run. -/
theorem trace_record_success_run_witness :
    main exSuccessRun = Except.ok ⟨"ENHANCED QUESTION", "SQL", true, "EXPL",
      [log_interaction "raw question" "SQL" [["1"]] "EXPL"]⟩ :=
  trace_record_success_run exSuccessRun "SQL" [["1"]] "EXPL" rfl rfl rfl

/-- Every list prefix is in particular a contiguous sublist. -/
lemma pre_within {α : Type} {l₁ l₂ : List α} (h : l₁ <+: l₂) :
    l₁ <:+: l₂ := by
  obtain ⟨t, ht⟩ := h
  exact ⟨[], t, ht⟩

/-- A contiguous sublist of `l₂` is one of `l₁ ++ l₂`. -/
lemma within_append_left {α : Type} (l₁ : List α) {w l₂ : List α}
    (h : w <:+: l₂) : w <:+: l₁ ++ l₂ := by
  obtain ⟨s, t, hst⟩ := h
  refine ⟨l₁ ++ s, t, ?_⟩
  rw [← hst]
  simp [List.append_assoc]

/-- Folding a step that only appends to the right keeps the accumulator's
characters as a prefix of the result. -/
lemma foldl_data_pre {α : Type} (step : String → α → String)
    (h : ∀ a x, ∃ s, (step a x).data = a.data ++ s) :
    ∀ (l : List α) (acc : String),
      acc.data <+: (List.foldl step acc l).data := by
  intro l
  induction l with
  | nil =>
    intro acc
    exact List.prefix_rfl
  | cons x xs ih =>
    intro acc
    obtain ⟨s, hs⟩ := h acc x
    have h1 : acc.data <+: (step acc x).data := by
      rw [hs]
      exact List.prefix_append _ _
    exact h1.trans (ih (step acc x))

/-- If a word is a contiguous sublist of the chunk the step appends for a
given element, it is a contiguous sublist of the result of folding over
any list containing that element. -/
lemma foldl_data_within_of_mem {α : Type} (step : String → α → String)
    (h : ∀ a x, ∃ s, (step a x).data = a.data ++ s)
    (w : List Char) (x : α) (hw : ∀ a, w <:+: (step a x).data) :
    ∀ (l : List α) (acc : String), x ∈ l →
      w <:+: (List.foldl step acc l).data := by
  intro l
  induction l with
  | nil =>
    intro acc hx
    cases hx
  | cons y ys ih =>
    intro acc hx
    rcases List.mem_cons.mp hx with hxy | hx2
    · subst hxy
      exact (hw acc).trans (pre_within (foldl_data_pre step h ys (step acc x)))
    · exact ih (step acc y) hx2

/-- The inner column loop of `load_and_format_schema` only appends to the
accumulator. -/
lemma column_step_appends :
    ∀ (f : String) (cd : String × String),
      ∃ s, (f ++ "  - " ++ cd.1 ++ ": " ++ cd.2 ++ "\n").data = f.data ++ s := by
  intro f cd
  refine ⟨"  - ".data ++ (cd.1.data ++ (": ".data ++ (cd.2.data ++ "\n".data))), ?_⟩
  simp [List.append_assoc]

/-- The outer table loop of `load_and_format_schema` only appends to the
accumulator. -/
lemma table_step_appends :
    ∀ (a : String) (tc : String × List (String × String)),
      ∃ s, ((tc.2.foldl (fun f cd => f ++ "  - " ++ cd.1 ++ ": " ++ cd.2 ++ "\n")
        (a ++ "Table: " ++ tc.1 ++ "\n")) ++ "\n").data = a.data ++ s := by
  intro a tc
  have hb : a.data <+: (a ++ "Table: " ++ tc.1 ++ "\n").data := by
    simp only [String.data_append, List.append_assoc]
    exact List.prefix_append _ _
  have hc := foldl_data_pre _ column_step_appends tc.2 (a ++ "Table: " ++ tc.1 ++ "\n")
  have hd : (tc.2.foldl (fun f cd => f ++ "  - " ++ cd.1 ++ ": " ++ cd.2 ++ "\n")
      (a ++ "Table: " ++ tc.1 ++ "\n")).data <+:
      ((tc.2.foldl (fun f cd => f ++ "  - " ++ cd.1 ++ ": " ++ cd.2 ++ "\n")
        (a ++ "Table: " ++ tc.1 ++ "\n")) ++ "\n").data := by
    simp only [String.data_append]
    exact List.prefix_append _ _
  obtain ⟨s, hs⟩ := (hb.trans hc).trans hd
  exact ⟨s, hs.symm⟩

/-- C9: every table name and every column name of the schema description
appears verbatim (as a contiguous character substring) in the text block
produced by `load_and_format_schema`, which renders each table as
`Table: {name}` followed by one indented `  - {column}: {description}`
line per column and a blank line after each table. -/
theorem schema_names_in_formatted_text (schema : Schema) (t : String)
    (cols : List (String × String)) (hmem : (t, cols) ∈ schema) :
    t.data <:+: (load_and_format_schema schema).data ∧
    ∀ c d, (c, d) ∈ cols →
      c.data <:+: (load_and_format_schema schema).data := by
  unfold load_and_format_schema
  constructor
  · refine foldl_data_within_of_mem _ table_step_appends t.data (t, cols)
      ?_ schema "" hmem
    intro a
    have h1 : t.data <:+: (a ++ "Table: " ++ t ++ "\n").data := by
      simp only [String.data_append, List.append_assoc]
      exact within_append_left _ (List.infix_append' _ _ _)
    have h2 := foldl_data_pre _ column_step_appends cols (a ++ "Table: " ++ t ++ "\n")
    have h3 : (cols.foldl (fun f cd => f ++ "  - " ++ cd.1 ++ ": " ++ cd.2 ++ "\n")
        (a ++ "Table: " ++ t ++ "\n")).data <+:
        ((cols.foldl (fun f cd => f ++ "  - " ++ cd.1 ++ ": " ++ cd.2 ++ "\n")
          (a ++ "Table: " ++ t ++ "\n")) ++ "\n").data := by
      simp only [String.data_append]
      exact List.prefix_append _ _
    exact h1.trans (pre_within (h2.trans h3))
  · intro c d hcd
    refine foldl_data_within_of_mem _ table_step_appends c.data (t, cols)
      ?_ schema "" hmem
    intro a
    have hc : ∀ f : String, c.data <:+: (f ++ "  - " ++ c ++ ": " ++ d ++ "\n").data := by
      intro f
      simp only [String.data_append, List.append_assoc]
      exact within_append_left _ (List.infix_append' _ _ _)
    have h4 := foldl_data_within_of_mem _ column_step_appends c.data (c, d)
      hc cols (a ++ "Table: " ++ t ++ "\n") hcd
    have h5 : (cols.foldl (fun f cd => f ++ "  - " ++ cd.1 ++ ": " ++ cd.2 ++ "\n")
        (a ++ "Table: " ++ t ++ "\n")).data <+:
        ((cols.foldl (fun f cd => f ++ "  - " ++ cd.1 ++ ": " ++ cd.2 ++ "\n")
          (a ++ "Table: " ++ t ++ "\n")) ++ "\n").data := by
      simp only [String.data_append]
      exact List.prefix_append _ _
    exact h4.trans (pre_within h5)

/-- Witness for C9 on the concrete schema: both the table name and a
column name occur verbatim in the formatted text. -/
theorem schema_names_in_formatted_text_witness :
    "customers".data <:+: (load_and_format_schema exSchema).data ∧
    "name".data <:+: (load_and_format_schema exSchema).data := by
  have h := schema_names_in_formatted_text exSchema "customers"
    [("id", "Customer ID"), ("name", "Customer name")] (by decide)
  exact ⟨h.1, h.2 "name" "Customer name" (by decide)⟩

end Ragas
